import Mathlib

/-!
Verification of the heuristic AI-image-detector scoring pipeline
(`computeScoreFromBitmap` and its helpers in `script.js`).

Modelling choices:
* JS numbers are modelled by exact arithmetic: the integer/rational part of
  the pipeline lives in `ℚ` (and `ℕ`/`ℤ` for dimensions), `Math.sqrt` is
  modelled by `Real.sqrt`, so the final score lives in `ℝ`.
* The pixel function `px : ℕ → Fin 3 → ℚ` models the RGBA `data` array of
  the downscaled working canvas: `px i c` is `data[i*4 + c]` (channel
  `c = 0,1,2` for R,G,B; the alpha byte is never read by the code).
  The resampling performed by `drawImage` is outside the contract (the spec
  fixes only that samples stay in `[0,255]`), so the working-buffer contents
  are taken as an input; a uniform source image yields a uniform buffer.
* `Math.random()` is the single scalar draw `U` consumed by the jitter
  term; it is passed as an explicit argument.
-/

namespace AIDetector

/-- `clamp(v,a,b) = Math.max(a, Math.min(b, v))` from `script.js`. -/
noncomputable def clamp (v a b : ℝ) : ℝ := max a (min b v)

/-- JS `Math.round`: round half towards positive infinity. -/
def jsRound (q : ℚ) : ℤ := ⌊q + 1/2⌋

/-- The scale factor `Math.min(1, 512 / Math.max(w, h))`.  In JS, division
of `512` by `0` yields `Infinity` and `Math.min(1, Infinity) = 1`, hence
the explicit case split for `max origW origH = 0`. -/
def scaleFor (origW origH : ℕ) : ℚ :=
  if max origW origH = 0 then 1
  else min 1 (512 / (max origW origH : ℚ))

/-- Working-buffer dimensions:
`w = Math.max(64, Math.round(origW * scale))` and likewise for `h`. -/
def computeDims (origW origH : ℕ) : ℕ × ℕ :=
  (max 64 (jsRound ((origW : ℚ) * scaleFor origW origH)).toNat,
   max 64 (jsRound ((origH : ℚ) * scaleFor origW origH)).toNat)

/-- Grayscale value of pixel `i`: `0.299*r + 0.587*g + 0.114*b`. -/
def grayAt (px : ℕ → Fin 3 → ℚ) (i : ℕ) : ℚ :=
  0.299 * px i 0 + 0.587 * px i 1 + 0.114 * px i 2

/-- Absolute discrete Laplacian at interior pixel `(x, y)`, `i = y*w + x`:
`|-4*gray[i] + gray[i-1] + gray[i+1] + gray[i-w] + gray[i+w]|`. -/
def lapTerm (px : ℕ → Fin 3 → ℚ) (w y x : ℕ) : ℚ :=
  |(-4) * grayAt px (y * w + x) + grayAt px (y * w + x - 1) +
      grayAt px (y * w + x + 1) + grayAt px (y * w + x - w) +
      grayAt px (y * w + x + w)|

/-- `lapSum`: sum of the absolute Laplacian over the interior pixels
(`1 ≤ y < h-1`, `1 ≤ x < w-1`). -/
def lapSum (w h : ℕ) (px : ℕ → Fin 3 → ℚ) : ℚ :=
  ∑ y ∈ Finset.Ico 1 (h - 1), ∑ x ∈ Finset.Ico 1 (w - 1), lapTerm px w y x

/-- The interior pixel count `(w-2)*(h-2)` (computed in ℤ, as in JS). -/
def interiorCount (w h : ℕ) : ℤ := ((w : ℤ) - 2) * ((h : ℤ) - 2)

/-- `lapAvg = lapSum / ((w-2)*(h-2))`. -/
def lapAvg (w h : ℕ) (px : ℕ → Fin 3 → ℚ) : ℚ :=
  lapSum w h px / (interiorCount w h : ℚ)

/-- Sum of channel `c` over all `w*h` pixels (the `mean[cidx]` accumulator). -/
def chanSum (w h : ℕ) (px : ℕ → Fin 3 → ℚ) (c : Fin 3) : ℚ :=
  ∑ i ∈ Finset.range (w * h), px i c

/-- Sum of squared channel values (the `sq[cidx]` accumulator). -/
def chanSqSum (w h : ℕ) (px : ℕ → Fin 3 → ℚ) (c : Fin 3) : ℚ :=
  ∑ i ∈ Finset.range (w * h), px i c * px i c

/-- Per-channel mean: `mean[cidx] / N` with `N = w*h`. -/
def chanMean (w h : ℕ) (px : ℕ → Fin 3 → ℚ) (c : Fin 3) : ℚ :=
  chanSum w h px c / (w * h : ℚ)

/-- Per-channel population variance, floor-clamped at 0:
`Math.max(0, sq[cidx]/N - mean[cidx]*mean[cidx])`. -/
def chanVar (w h : ℕ) (px : ℕ → Fin 3 → ℚ) (c : Fin 3) : ℚ :=
  max 0 (chanSqSum w h px c / (w * h : ℚ) - chanMean w h px c * chanMean w h px c)

/-- Per-channel standard deviation `Math.sqrt(chanVar)`. -/
noncomputable def chanStd (w h : ℕ) (px : ℕ → Fin 3 → ℚ) (c : Fin 3) : ℝ :=
  Real.sqrt ((chanVar w h px c : ℚ) : ℝ)

/-- `avgStd = (std[0] + std[1] + std[2]) / 3`. -/
noncomputable def avgStd (w h : ℕ) (px : ℕ → Fin 3 → ℚ) : ℝ :=
  (chanStd w h px 0 + chanStd w h px 1 + chanStd w h px 2) / 3

/-- Per-pixel saturation on the `[0,1]`-normalized channels:
`max = 0 ? 0 : (max - min)/max`. -/
def satAt (px : ℕ → Fin 3 → ℚ) (i : ℕ) : ℚ :=
  if max (px i 0 / 255) (max (px i 1 / 255) (px i 2 / 255)) = 0 then 0
  else
    (max (px i 0 / 255) (max (px i 1 / 255) (px i 2 / 255)) -
        min (px i 0 / 255) (min (px i 1 / 255) (px i 2 / 255))) /
      max (px i 0 / 255) (max (px i 1 / 255) (px i 2 / 255))

/-- `satSum`: accumulated per-pixel saturation. -/
def satSum (w h : ℕ) (px : ℕ → Fin 3 → ℚ) : ℚ :=
  ∑ i ∈ Finset.range (w * h), satAt px i

/-- `avgSat = satSum / N`. -/
def avgSat (w h : ℕ) (px : ℕ → Fin 3 → ℚ) : ℚ :=
  satSum w h px / (w * h : ℚ)

/-- `sizeKB = file.size / 1024`. -/
def sizeKB (fileSize : ℕ) : ℚ := (fileSize : ℚ) / 1024

/-- `lapNorm = clamp((150 - lapAvg)/150, 0, 1)`. -/
noncomputable def lapNorm (lap : ℝ) : ℝ := clamp ((150 - lap) / 150) 0 1

/-- `stdNorm = clamp((60 - avgStd)/60, 0, 1)`. -/
noncomputable def stdNorm (std : ℝ) : ℝ := clamp ((60 - std) / 60) 0 1

/-- `satNorm = clamp((avgSat - 0.25)/0.5, 0, 1)`. -/
noncomputable def satNorm (sat : ℝ) : ℝ := clamp ((sat - 0.25) / 0.5) 0 1

/-- `sizeNorm = clamp((100 - Math.min(sizeKB,100))/100, 0, 1)`. -/
noncomputable def sizeNorm (size : ℝ) : ℝ := clamp ((100 - min size 100) / 100) 0 1

/-- The pre-jitter score
`(lapNorm*0.45 + stdNorm*0.30 + satNorm*0.10 + sizeNorm*0.15) * 100`. -/
noncomputable def rawScore (lap std sat size : ℝ) : ℝ :=
  (lapNorm lap * 0.45 + stdNorm std * 0.30 + satNorm sat * 0.10 +
      sizeNorm size * 0.15) * 100

/-- The jitter term `(Math.random() - 0.5) * 6` with the draw `U` explicit. -/
noncomputable def jitter (U : ℝ) : ℝ := (U - 0.5) * 6

/-- The score combiner: `clamp(score + jitter, 0, 100)`. -/
noncomputable def combineScore (lap std sat size U : ℝ) : ℝ :=
  clamp (rawScore lap std sat size + jitter U) 0 100

/-- The full scoring pipeline `computeScoreFromBitmap`: compute the
working-buffer dimensions from the original ones, extract the four
features from the working buffer `px` and the file byte length, and
combine them. -/
noncomputable def computeScoreFromBitmap (origW origH : ℕ) (px : ℕ → Fin 3 → ℚ)
    (fileSize : ℕ) (U : ℝ) : ℝ :=
  combineScore
    ((lapAvg (computeDims origW origH).1 (computeDims origW origH).2 px : ℚ) : ℝ)
    (avgStd (computeDims origW origH).1 (computeDims origW origH).2 px)
    ((avgSat (computeDims origW origH).1 (computeDims origW origH).2 px : ℚ) : ℝ)
    ((sizeKB fileSize : ℚ) : ℝ)
    U

/-- The verdict string from `showResult`: `score>=90 ? 'AI-generated' : 'Likely real'`. -/
noncomputable def verdict (score : ℝ) : String :=
  if score ≥ 90 then "AI-generated" else "Likely real"

/-- Uniform black working buffer (every pixel `R=G=B=0`). -/
def blackPx : ℕ → Fin 3 → ℚ := fun _ _ => 0

/-- Uniform mid-gray working buffer (every pixel `R=G=B=128`). -/
def grayPx : ℕ → Fin 3 → ℚ := fun _ _ => 128

/-! ### Basic lemmas about `clamp` -/

lemma clamp_nonneg (v b : ℝ) : 0 ≤ clamp v 0 b := le_max_left 0 _

lemma clamp_le_upper (v b : ℝ) (hb : 0 ≤ b) : clamp v 0 b ≤ b :=
  max_le hb (min_le_left _ _)

lemma clamp_of_mem (v a b : ℝ) (h1 : a ≤ v) (h2 : v ≤ b) : clamp v a b = v := by
  unfold clamp
  rw [min_eq_right h2, max_eq_right h1]

lemma clamp_of_le (v a b : ℝ) (h1 : v ≤ a) (hab : a ≤ b) : clamp v a b = a := by
  unfold clamp
  rw [min_eq_right (h1.trans hab), max_eq_left h1]

lemma clamp_mono (v v' a b : ℝ) (h : v ≤ v') : clamp v a b ≤ clamp v' a b :=
  max_le_max le_rfl (min_le_min le_rfl h)

/-! ### Monotonicity of the normalizations and the combiner -/

lemma lapNorm_anti (x y : ℝ) (h : x ≤ y) : lapNorm y ≤ lapNorm x := by
  unfold lapNorm
  apply clamp_mono
  apply div_le_div_of_nonneg_right ?_ ?_ <;> [linarith; norm_num]

lemma stdNorm_anti (x y : ℝ) (h : x ≤ y) : stdNorm y ≤ stdNorm x := by
  unfold stdNorm
  apply clamp_mono
  apply div_le_div_of_nonneg_right ?_ ?_ <;> [linarith; norm_num]

lemma satNorm_mono (x y : ℝ) (h : x ≤ y) : satNorm x ≤ satNorm y := by
  unfold satNorm
  apply clamp_mono
  apply div_le_div_of_nonneg_right ?_ ?_ <;> [linarith; norm_num]

lemma sizeNorm_anti (x y : ℝ) (h : x ≤ y) : sizeNorm y ≤ sizeNorm x := by
  unfold sizeNorm
  apply clamp_mono
  have hmin : min x 100 ≤ min y 100 := min_le_min h le_rfl
  apply div_le_div_of_nonneg_right ?_ ?_ <;> [linarith; norm_num]

lemma combineScore_anti_lap (lap lap' std sat size U : ℝ) (h : lap ≤ lap') :
    combineScore lap' std sat size U ≤ combineScore lap std sat size U := by
  unfold combineScore rawScore
  apply clamp_mono
  have h1 := lapNorm_anti lap lap' h
  nlinarith [h1]

lemma combineScore_anti_std (lap std std' sat size U : ℝ) (h : std ≤ std') :
    combineScore lap std' sat size U ≤ combineScore lap std sat size U := by
  unfold combineScore rawScore
  apply clamp_mono
  have h1 := stdNorm_anti std std' h
  nlinarith [h1]

lemma combineScore_mono_sat (lap std sat sat' size U : ℝ) (h : sat ≤ sat') :
    combineScore lap std sat size U ≤ combineScore lap std sat' size U := by
  unfold combineScore rawScore
  apply clamp_mono
  have h1 := satNorm_mono sat sat' h
  nlinarith [h1]

lemma combineScore_anti_size (lap std sat size size' U : ℝ) (h : size ≤ size') :
    combineScore lap std sat size' U ≤ combineScore lap std sat size U := by
  unfold combineScore rawScore
  apply clamp_mono
  have h1 := sizeNorm_anti size size' h
  nlinarith [h1]

/-! ### Feature values on uniform buffers -/

lemma grayAt_const (v : ℚ) (i : ℕ) : grayAt (fun _ _ => v) i = v := by
  unfold grayAt
  ring_nf

lemma lapTerm_const (v : ℚ) (w y x : ℕ) : lapTerm (fun _ _ => v) w y x = 0 := by
  unfold lapTerm
  rw [grayAt_const, grayAt_const, grayAt_const, grayAt_const, grayAt_const,
    show (-4 : ℚ) * v + v + v + v + v = 0 by ring, abs_zero]

lemma lapSum_const (w h : ℕ) (v : ℚ) : lapSum w h (fun _ _ => v) = 0 :=
  Finset.sum_eq_zero fun y _ => Finset.sum_eq_zero fun x _ => lapTerm_const v w y x

lemma lapAvg_const (w h : ℕ) (v : ℚ) : lapAvg w h (fun _ _ => v) = 0 := by
  unfold lapAvg
  rw [lapSum_const, zero_div]

lemma chanSum_const (w h : ℕ) (v : ℚ) (c : Fin 3) :
    chanSum w h (fun _ _ => v) c = (w : ℚ) * h * v := by
  unfold chanSum
  rw [Finset.sum_const, Finset.card_range, nsmul_eq_mul]
  push_cast
  ring

lemma chanSqSum_const (w h : ℕ) (v : ℚ) (c : Fin 3) :
    chanSqSum w h (fun _ _ => v) c = (w : ℚ) * h * (v * v) := by
  unfold chanSqSum
  rw [Finset.sum_const, Finset.card_range, nsmul_eq_mul]
  push_cast
  ring

lemma chanMean_const (w h : ℕ) (v : ℚ) (c : Fin 3) (hN : 0 < w * h) :
    chanMean w h (fun _ _ => v) c = v := by
  have hQ : ((w : ℚ) * h) ≠ 0 := by
    have h1 : ((w * h : ℕ) : ℚ) ≠ 0 := Nat.cast_ne_zero.mpr hN.ne'
    push_cast at h1
    exact h1
  unfold chanMean
  rw [chanSum_const]
  exact mul_div_cancel_left₀ v hQ

lemma chanVar_const (w h : ℕ) (v : ℚ) (c : Fin 3) (hN : 0 < w * h) :
    chanVar w h (fun _ _ => v) c = 0 := by
  have hQ : ((w : ℚ) * h) ≠ 0 := by
    have h1 : ((w * h : ℕ) : ℚ) ≠ 0 := Nat.cast_ne_zero.mpr hN.ne'
    push_cast at h1
    exact h1
  unfold chanVar
  rw [chanSqSum_const, chanMean_const w h v c hN, mul_div_cancel_left₀ _ hQ,
    sub_self, max_self]

lemma avgStd_const (w h : ℕ) (v : ℚ) (hN : 0 < w * h) :
    avgStd w h (fun _ _ => v) = 0 := by
  unfold avgStd chanStd
  rw [chanVar_const w h v 0 hN, chanVar_const w h v 1 hN, chanVar_const w h v 2 hN]
  simp

lemma satAt_const (v : ℚ) (i : ℕ) : satAt (fun _ _ => v) i = 0 := by
  unfold satAt
  simp

lemma avgSat_const (w h : ℕ) (v : ℚ) : avgSat w h (fun _ _ => v) = 0 := by
  unfold avgSat satSum
  rw [Finset.sum_eq_zero fun i _ => satAt_const v i, zero_div]

/-! ### Values of the normalizations at the test points -/

lemma lapNorm_zero : lapNorm 0 = 1 := by
  unfold lapNorm
  rw [show ((150 : ℝ) - 0) / 150 = 1 by norm_num]
  exact clamp_of_mem 1 0 1 zero_le_one le_rfl

lemma stdNorm_zero : stdNorm 0 = 1 := by
  unfold stdNorm
  rw [show ((60 : ℝ) - 0) / 60 = 1 by norm_num]
  exact clamp_of_mem 1 0 1 zero_le_one le_rfl

lemma satNorm_zero : satNorm 0 = 0 := by
  unfold satNorm
  rw [show ((0 : ℝ) - 0.25) / 0.5 = -(1 / 2) by norm_num]
  exact clamp_of_le _ 0 1 (by norm_num) zero_le_one

lemma sizeNorm_zero : sizeNorm 0 = 1 := by
  unfold sizeNorm
  rw [min_eq_left (by norm_num : (0 : ℝ) ≤ 100),
    show ((100 : ℝ) - 0) / 100 = 1 by norm_num]
  exact clamp_of_mem 1 0 1 zero_le_one le_rfl

lemma sizeNorm_ten : sizeNorm 10 = 0.9 := by
  unfold sizeNorm
  rw [min_eq_left (by norm_num : (10 : ℝ) ≤ 100),
    show ((100 : ℝ) - 10) / 100 = 0.9 by norm_num]
  exact clamp_of_mem 0.9 0 1 (by norm_num) (by norm_num)

lemma jitter_half : jitter (1 / 2) = 0 := by
  unfold jitter
  norm_num

/-- Score of a uniform black buffer with file length 0 and jitter 0. -/
lemma score_black (origW origH : ℕ) :
    computeScoreFromBitmap origW origH blackPx 0 (1 / 2) = 90 := by
  have hN : 0 < (computeDims origW origH).1 * (computeDims origW origH).2 :=
    Nat.mul_pos (lt_of_lt_of_le (by norm_num) (le_max_left 64 _))
      (lt_of_lt_of_le (by norm_num) (le_max_left 64 _))
  unfold computeScoreFromBitmap blackPx
  rw [lapAvg_const, avgSat_const, avgStd_const _ _ _ hN,
    show sizeKB 0 = 0 by unfold sizeKB; norm_num]
  unfold combineScore rawScore
  push_cast
  rw [lapNorm_zero, stdNorm_zero, satNorm_zero, sizeNorm_zero, jitter_half,
    show ((1 : ℝ) * 0.45 + 1 * 0.30 + 0 * 0.10 + 1 * 0.15) * 100 + 0 = 90 by norm_num]
  exact clamp_of_mem 90 0 100 (by norm_num) (by norm_num)

/-- Score of a uniform mid-gray buffer with file length 10240 and jitter 0. -/
lemma score_gray (origW origH : ℕ) :
    computeScoreFromBitmap origW origH grayPx 10240 (1 / 2) = 88.5 := by
  have hN : 0 < (computeDims origW origH).1 * (computeDims origW origH).2 :=
    Nat.mul_pos (lt_of_lt_of_le (by norm_num) (le_max_left 64 _))
      (lt_of_lt_of_le (by norm_num) (le_max_left 64 _))
  unfold computeScoreFromBitmap grayPx
  rw [lapAvg_const, avgSat_const, avgStd_const _ _ _ hN,
    show sizeKB 10240 = 10 by unfold sizeKB; norm_num]
  unfold combineScore rawScore
  push_cast
  rw [lapNorm_zero, stdNorm_zero, satNorm_zero, sizeNorm_ten, jitter_half,
    show ((1 : ℝ) * 0.45 + 1 * 0.30 + 0 * 0.10 + 0.9 * 0.15) * 100 + 0 = 88.5 by norm_num]
  exact clamp_of_mem 88.5 0 100 (by norm_num) (by norm_num)

/-! ### Claim theorems about the combiner -/

/-- C1: for every original size, working buffer, file byte length and random
draw, the returned score lies in `[0, 100]`, because the final value is
`clamp(score + jitter, 0, 100)`. -/
theorem claim_C1_score_in_range (origW origH : ℕ) (px : ℕ → Fin 3 → ℚ)
    (fileSize : ℕ) (U : ℝ) :
    0 ≤ computeScoreFromBitmap origW origH px fileSize U ∧
      computeScoreFromBitmap origW origH px fileSize U ≤ 100 := by
  unfold computeScoreFromBitmap combineScore
  exact ⟨clamp_nonneg _ _, clamp_le_upper _ _ (by norm_num)⟩

/-- C4: the random draw enters the pipeline only as the explicit argument
`U` consumed by the jitter term; with the draw fixed so that the jitter is
0, scoring is a pure function: two runs on the same working buffer and the
same file byte length return identical scores. -/
theorem claim_C4_fixed_jitter_pure (origW origH : ℕ) (px : ℕ → Fin 3 → ℚ)
    (fileSize : ℕ) (U U' : ℝ) (hU : jitter U = 0) (hU' : jitter U' = 0) :
    computeScoreFromBitmap origW origH px fileSize U =
      computeScoreFromBitmap origW origH px fileSize U' := by
  unfold jitter at hU hU'
  have h : U = U' := by linarith
  rw [h]

/-- Witness for C4 at the concrete draw `U = 1/2` (written two ways). -/
theorem claim_C4_fixed_jitter_pure_witness :
    computeScoreFromBitmap 64 64 blackPx 0 (1 / 2) =
      computeScoreFromBitmap 64 64 blackPx 0 0.5 :=
  claim_C4_fixed_jitter_pure 64 64 blackPx 0 (1 / 2) 0.5
    (by unfold jitter; norm_num) (by unfold jitter; norm_num)

/-- C9: the final score is the clamp of the pre-clamp score plus the jitter
term, the jitter term equals `(U - 0.5) * 6`, and for every draw
`U ∈ [0, 1)` it lies within `[-3, +3]`. -/
theorem claim_C9_jitter_range (origW origH : ℕ) (px : ℕ → Fin 3 → ℚ)
    (fileSize : ℕ) (U : ℝ) (hU0 : 0 ≤ U) (hU1 : U < 1) :
    computeScoreFromBitmap origW origH px fileSize U =
      clamp
        (rawScore
            ((lapAvg (computeDims origW origH).1 (computeDims origW origH).2 px : ℚ) : ℝ)
            (avgStd (computeDims origW origH).1 (computeDims origW origH).2 px)
            ((avgSat (computeDims origW origH).1 (computeDims origW origH).2 px : ℚ) : ℝ)
            ((sizeKB fileSize : ℚ) : ℝ) +
          (U - 0.5) * 6) 0 100 ∧
    jitter U = (U - 0.5) * 6 ∧ -3 ≤ jitter U ∧ jitter U ≤ 3 := by
  refine ⟨rfl, rfl, ?_, ?_⟩ <;> unfold jitter <;> linarith

/-- Witness for C9 at the draw `U = 0`. -/
theorem claim_C9_jitter_range_witness :
    computeScoreFromBitmap 64 64 blackPx 0 0 =
      clamp
        (rawScore
            ((lapAvg (computeDims 64 64).1 (computeDims 64 64).2 blackPx : ℚ) : ℝ)
            (avgStd (computeDims 64 64).1 (computeDims 64 64).2 blackPx)
            ((avgSat (computeDims 64 64).1 (computeDims 64 64).2 blackPx : ℚ) : ℝ)
            ((sizeKB 0 : ℚ) : ℝ) +
          ((0 : ℝ) - 0.5) * 6) 0 100 ∧
    jitter 0 = ((0 : ℝ) - 0.5) * 6 ∧ -3 ≤ jitter (0 : ℝ) ∧ jitter (0 : ℝ) ≤ 3 :=
  claim_C9_jitter_range 64 64 blackPx 0 0 le_rfl (by norm_num)

/-- C10: with the random draw held fixed, the combined score is monotone in
each feature separately: non-increasing in the edge energy, in the average
channel standard deviation and in the file byte length, and non-decreasing
in the saturation. -/
theorem claim_C10_monotone (lap lap' std std' sat sat' : ℝ) (n n' : ℕ)
    (size U : ℝ) :
    (lap ≤ lap' → combineScore lap' std sat size U ≤ combineScore lap std sat size U) ∧
    (std ≤ std' → combineScore lap std' sat size U ≤ combineScore lap std sat size U) ∧
    (n ≤ n' → combineScore lap std sat ((sizeKB n' : ℚ) : ℝ) U ≤
        combineScore lap std sat ((sizeKB n : ℚ) : ℝ) U) ∧
    (sat ≤ sat' → combineScore lap std sat size U ≤ combineScore lap std sat' size U) := by
  refine ⟨combineScore_anti_lap _ _ _ _ _ _,
    combineScore_anti_std _ _ _ _ _ _, fun hn => ?_,
    combineScore_mono_sat _ _ _ _ _ _⟩
  apply combineScore_anti_size
  have h1 : (sizeKB n : ℚ) ≤ sizeKB n' := by
    unfold sizeKB
    apply div_le_div_of_nonneg_right ?_ ?_ <;> [exact_mod_cast hn; norm_num]
  exact_mod_cast h1

/-- Witness for C10 at concrete feature values. -/
theorem claim_C10_monotone_witness :
    combineScore 2 0 0 0 (1 / 2) ≤ combineScore 1 0 0 0 (1 / 2) ∧
    combineScore 1 3 0 0 (1 / 2) ≤ combineScore 1 0 0 0 (1 / 2) ∧
    combineScore 1 0 0 ((sizeKB 2048 : ℚ) : ℝ) (1 / 2) ≤
      combineScore 1 0 0 ((sizeKB 1024 : ℚ) : ℝ) (1 / 2) ∧
    combineScore 1 0 0 0 (1 / 2) ≤ combineScore 1 0 1 0 (1 / 2) := by
  have h := claim_C10_monotone 1 2 0 3 0 1 1024 2048 0 (1 / 2)
  exact ⟨h.1 (by norm_num), h.2.1 (by norm_num), h.2.2.1 (by norm_num),
    h.2.2.2 (by norm_num)⟩

/-! ### Claim theorems about the concrete test images -/

/-- C2: on a uniform black buffer with file length 0 and the jitter term
fixed to 0 (`U = 1/2`), the edge energy, the average channel standard
deviation and the saturation are all 0, the size normalization is 1, the
score is exactly 90, and the inclusive comparison `score >= 90` classifies
it as "AI-generated". -/
theorem claim_C2_black_boundary (origW origH : ℕ) :
    lapAvg (computeDims origW origH).1 (computeDims origW origH).2 blackPx = 0 ∧
    avgStd (computeDims origW origH).1 (computeDims origW origH).2 blackPx = 0 ∧
    avgSat (computeDims origW origH).1 (computeDims origW origH).2 blackPx = 0 ∧
    sizeNorm ((sizeKB 0 : ℚ) : ℝ) = 1 ∧
    jitter (1 / 2) = 0 ∧
    computeScoreFromBitmap origW origH blackPx 0 (1 / 2) = 90 ∧
    verdict (computeScoreFromBitmap origW origH blackPx 0 (1 / 2)) = "AI-generated" := by
  have hN : 0 < (computeDims origW origH).1 * (computeDims origW origH).2 :=
    Nat.mul_pos (lt_of_lt_of_le (by norm_num) (le_max_left 64 _))
      (lt_of_lt_of_le (by norm_num) (le_max_left 64 _))
  refine ⟨?_, ?_, ?_, ?_, jitter_half, score_black origW origH, ?_⟩
  · unfold blackPx
    exact lapAvg_const _ _ 0
  · unfold blackPx
    exact avgStd_const _ _ 0 hN
  · unfold blackPx
    exact avgSat_const _ _ 0
  · rw [show sizeKB 0 = 0 by unfold sizeKB; norm_num]
    push_cast
    exact sizeNorm_zero
  · rw [score_black origW origH]
    unfold verdict
    rw [if_pos (show (90 : ℝ) ≥ 90 from le_refl 90)]

/-- C3: on a uniform mid-gray buffer (all channels 128) with file length
10240 bytes and the jitter term fixed to 0, the normalized features are
`lapNorm = 1`, `stdNorm = 1`, `satNorm = 0`, `sizeNorm = 0.9`, the score is
exactly 88.5, and the verdict is "Likely real". -/
theorem claim_C3_gray_real (origW origH : ℕ) :
    lapNorm ((lapAvg (computeDims origW origH).1 (computeDims origW origH).2 grayPx : ℚ) : ℝ) = 1 ∧
    stdNorm (avgStd (computeDims origW origH).1 (computeDims origW origH).2 grayPx) = 1 ∧
    satNorm ((avgSat (computeDims origW origH).1 (computeDims origW origH).2 grayPx : ℚ) : ℝ) = 0 ∧
    sizeNorm ((sizeKB 10240 : ℚ) : ℝ) = 0.9 ∧
    computeScoreFromBitmap origW origH grayPx 10240 (1 / 2) = 88.5 ∧
    verdict (computeScoreFromBitmap origW origH grayPx 10240 (1 / 2)) = "Likely real" := by
  have hN : 0 < (computeDims origW origH).1 * (computeDims origW origH).2 :=
    Nat.mul_pos (lt_of_lt_of_le (by norm_num) (le_max_left 64 _))
      (lt_of_lt_of_le (by norm_num) (le_max_left 64 _))
  refine ⟨?_, ?_, ?_, ?_, score_gray origW origH, ?_⟩
  · unfold grayPx
    rw [lapAvg_const]
    push_cast
    exact lapNorm_zero
  · unfold grayPx
    rw [avgStd_const _ _ 128 hN]
    exact stdNorm_zero
  · unfold grayPx
    rw [avgSat_const]
    push_cast
    exact satNorm_zero
  · rw [show sizeKB 10240 = 10 by unfold sizeKB; norm_num]
    push_cast
    exact sizeNorm_ten
  · rw [score_gray origW origH]
    unfold verdict
    rw [if_neg (show ¬((88.5 : ℝ) ≥ 90) by norm_num)]

/-- C5 counterexample: for a zero-area source buffer the extractor does not
fail with an InvalidInput condition — there is no validation at all.  The
dimensions are silently floor-clamped to `64 × 64` and a full score is
returned (here 90 for a black buffer with file length 0 and jitter 0). -/
theorem claim_C5_counterexample :
    computeDims 0 0 = (64, 64) ∧
    computeScoreFromBitmap 0 0 blackPx 0 (1 / 2) = 90 :=
  ⟨by norm_num [computeDims, jsRound, scaleFor], score_black 0 0⟩

/-- C5 amended: the extractor performs no zero-area validation; because of
the `max(64, …)` floor-clamp a zero-area buffer is processed exactly like a
`64 × 64` one, so no division by zero occurs and a total score is
returned. -/
theorem claim_C5_zero_area_no_failure (px : ℕ → Fin 3 → ℚ) (n : ℕ) (U : ℝ) :
    computeScoreFromBitmap 0 0 px n U = computeScoreFromBitmap 64 64 px n U := by
  unfold computeScoreFromBitmap
  rw [show computeDims 0 0 = computeDims 64 64 by
    norm_num [computeDims, jsRound, scaleFor]]

/-! ### Dimension bounds -/

lemma scaleFor_nonneg (origW origH : ℕ) : 0 ≤ scaleFor origW origH := by
  unfold scaleFor
  split
  · norm_num
  · exact le_min zero_le_one (div_nonneg (by norm_num) (le_max_of_le_left (Nat.cast_nonneg _)))

/-- Either working-buffer dimension is at most 512 as soon as the source
has a positive longer edge. -/
lemma dim_le_512 (d origW origH : ℕ) (hd : d ≤ max origW origH)
    (h0 : 0 < max origW origH) :
    max 64 (jsRound ((d : ℚ) * scaleFor origW origH)).toNat ≤ 512 := by
  apply max_le (by norm_num)
  rw [Int.toNat_le]
  unfold jsRound
  have hq : (d : ℚ) * scaleFor origW origH ≤ 512 := by
    unfold scaleFor
    rw [if_neg h0.ne']
    have hM : (0 : ℚ) < max (origW : ℚ) (origH : ℚ) := by
      rcases max_cases origW origH with ⟨he, _⟩ | ⟨he, _⟩ <;>
        rw [show max (origW : ℚ) (origH : ℚ) = ((max origW origH : ℕ) : ℚ) by push_cast; ring_nf] <;>
        exact_mod_cast h0
    have hdM : (d : ℚ) ≤ max (origW : ℚ) (origH : ℚ) := by
      rw [show max (origW : ℚ) (origH : ℚ) = ((max origW origH : ℕ) : ℚ) by push_cast; ring_nf]
      exact_mod_cast hd
    have hmin : 0 ≤ min 1 (512 / max (origW : ℚ) (origH : ℚ)) :=
      le_min zero_le_one (div_nonneg (by norm_num) hM.le)
    calc (d : ℚ) * min 1 (512 / max (origW : ℚ) (origH : ℚ)) ≤
        max (origW : ℚ) (origH : ℚ) * (512 / max (origW : ℚ) (origH : ℚ)) :=
          mul_le_mul hdM (min_le_right _ _) hmin hM.le
      _ = 512 := by field_simp
  calc ⌊(d : ℚ) * scaleFor origW origH + 1 / 2⌋ ≤ ⌊(512 : ℚ) + 1 / 2⌋ :=
        Int.floor_le_floor (by linarith)
    _ ≤ 512 := by norm_num

/-- C7: for positive original dimensions the working buffer satisfies
`64 ≤ W`, `64 ≤ H` and `W * H ≤ 512 * 512`; in particular `3 ≤ W`,
`3 ≤ H` and the interior pixel count `(W-2)*(H-2)` is at least 1. -/
theorem claim_C7_dims_invariant (origW origH : ℕ) (hW : 0 < origW)
    (hH : 0 < origH) :
    64 ≤ (computeDims origW origH).1 ∧ 64 ≤ (computeDims origW origH).2 ∧
    (computeDims origW origH).1 * (computeDims origW origH).2 ≤ 512 * 512 ∧
    3 ≤ (computeDims origW origH).1 ∧ 3 ≤ (computeDims origW origH).2 ∧
    1 ≤ ((computeDims origW origH).1 - 2) * ((computeDims origW origH).2 - 2) := by
  have h0 : 0 < max origW origH := by omega
  have g1 : 64 ≤ (computeDims origW origH).1 := le_max_left 64 _
  have g2 : 64 ≤ (computeDims origW origH).2 := le_max_left 64 _
  have h1 : (computeDims origW origH).1 ≤ 512 :=
    dim_le_512 origW origW origH (le_max_left _ _) h0
  have h2 : (computeDims origW origH).2 ≤ 512 :=
    dim_le_512 origH origW origH (le_max_right _ _) h0
  refine ⟨g1, g2, Nat.mul_le_mul h1 h2, by omega, by omega, ?_⟩
  have h3 := Nat.mul_le_mul (show 1 ≤ (computeDims origW origH).1 - 2 by omega)
    (show 1 ≤ (computeDims origW origH).2 - 2 by omega)
  simpa using h3

/-- Witness for C7 at the concrete source size 1000 × 800. -/
theorem claim_C7_dims_invariant_witness :
    64 ≤ (computeDims 1000 800).1 ∧ 64 ≤ (computeDims 1000 800).2 ∧
    (computeDims 1000 800).1 * (computeDims 1000 800).2 ≤ 512 * 512 ∧
    3 ≤ (computeDims 1000 800).1 ∧ 3 ≤ (computeDims 1000 800).2 ∧
    1 ≤ ((computeDims 1000 800).1 - 2) * ((computeDims 1000 800).2 - 2) :=
  claim_C7_dims_invariant 1000 800 (by norm_num) (by norm_num)

/-! ### Totality and non-negativity of the features -/

lemma lapTerm_nonneg (px : ℕ → Fin 3 → ℚ) (w y x : ℕ) : 0 ≤ lapTerm px w y x := by
  unfold lapTerm
  exact abs_nonneg _

lemma lapSum_nonneg (w h : ℕ) (px : ℕ → Fin 3 → ℚ) : 0 ≤ lapSum w h px :=
  Finset.sum_nonneg fun y _ => Finset.sum_nonneg fun x _ => lapTerm_nonneg px w y x

lemma interiorCount_ge_one (w h : ℕ) (hw : 3 ≤ w) (hh : 3 ≤ h) :
    1 ≤ interiorCount w h := by
  unfold interiorCount
  have a1 : (1 : ℤ) ≤ (w : ℤ) - 2 := by omega
  have a2 : (1 : ℤ) ≤ (h : ℤ) - 2 := by omega
  nlinarith

lemma lapAvg_nonneg (w h : ℕ) (px : ℕ → Fin 3 → ℚ) (hw : 3 ≤ w) (hh : 3 ≤ h) :
    0 ≤ lapAvg w h px := by
  unfold lapAvg
  apply div_nonneg (lapSum_nonneg w h px)
  have h1 : (0 : ℤ) ≤ interiorCount w h := by
    linarith [interiorCount_ge_one w h hw hh]
  exact_mod_cast h1

lemma avgStd_nonneg (w h : ℕ) (px : ℕ → Fin 3 → ℚ) : 0 ≤ avgStd w h px := by
  unfold avgStd chanStd
  positivity

lemma satAt_nonneg (px : ℕ → Fin 3 → ℚ) (i : ℕ) (hp : ∀ c, 0 ≤ px i c) :
    0 ≤ satAt px i := by
  unfold satAt
  split
  · exact le_rfl
  · apply div_nonneg
    · apply sub_nonneg.mpr
      exact le_trans (min_le_left _ _) (le_max_left _ _)
    · exact le_trans (div_nonneg (hp 0) (by norm_num)) (le_max_left _ _)

lemma avgSat_nonneg (w h : ℕ) (px : ℕ → Fin 3 → ℚ)
    (hpx : ∀ i c, 0 ≤ px i c) : 0 ≤ avgSat w h px := by
  unfold avgSat satSum
  apply div_nonneg
  · exact Finset.sum_nonneg fun i _ => satAt_nonneg px i (hpx i)
  · positivity

/-- C8: under the dimension floor, every numeric operation of the feature
extractor is total: the edge-energy average divides by the interior count
`(W-2)*(H-2) ≥ 1`, saturation is 0 on a zero max channel and otherwise
divides by that nonzero max, the variance is floor-clamped before the
square root, and all four features are non-negative (and, being exact
rationals/reals, finite). -/
theorem claim_C8_features_total (origW origH : ℕ) (px : ℕ → Fin 3 → ℚ)
    (n : ℕ) (hpx : ∀ i c, 0 ≤ px i c) :
    1 ≤ interiorCount (computeDims origW origH).1 (computeDims origW origH).2 ∧
    0 ≤ lapAvg (computeDims origW origH).1 (computeDims origW origH).2 px ∧
    0 ≤ avgStd (computeDims origW origH).1 (computeDims origW origH).2 px ∧
    0 ≤ avgSat (computeDims origW origH).1 (computeDims origW origH).2 px ∧
    0 ≤ sizeKB n := by
  have hw : 3 ≤ (computeDims origW origH).1 :=
    le_trans (by norm_num) (le_max_left 64 _)
  have hh : 3 ≤ (computeDims origW origH).2 :=
    le_trans (by norm_num) (le_max_left 64 _)
  refine ⟨interiorCount_ge_one _ _ hw hh, lapAvg_nonneg _ _ px hw hh,
    avgStd_nonneg _ _ px, avgSat_nonneg _ _ px hpx, ?_⟩
  unfold sizeKB
  positivity

/-- Witness for C8 on the black buffer. -/
theorem claim_C8_features_total_witness :
    1 ≤ interiorCount (computeDims 0 0).1 (computeDims 0 0).2 ∧
    0 ≤ lapAvg (computeDims 0 0).1 (computeDims 0 0).2 blackPx ∧
    0 ≤ avgStd (computeDims 0 0).1 (computeDims 0 0).2 blackPx ∧
    0 ≤ avgSat (computeDims 0 0).1 (computeDims 0 0).2 blackPx ∧
    0 ≤ sizeKB 0 :=
  claim_C8_features_total 0 0 blackPx 0 (fun _ _ => le_refl 0)

/-! ### The downscale formula (round versus floor) -/

/-- Modelled from the spec: the spec states that each working dimension is
obtained by *flooring* `origDim * scale` to an integer and then clamping
below to 64 ("Resulting width/height are each floored to an integer and
floor-clamped to a minimum of 64").  The code uses `Math.round` instead;
this definition follows the spec wording for comparison. -/
def specFloorDim (orig : ℕ) (scale : ℚ) : ℕ :=
  max 64 (Int.toNat ⌊(orig : ℚ) * scale⌋)

/-- C6 counterexample: the code rounds rather than floors.  At original
size 999 × 1024 the scale is 1/2, `999 * (1/2) = 499.5` rounds to 500 but
floors to 499, so the claimed formula disagrees with the code. -/
theorem claim_C6_counterexample :
    (computeDims 999 1024).1 = 500 ∧
    specFloorDim 999 (scaleFor 999 1024) = 499 ∧
    (computeDims 999 1024).1 ≠ specFloorDim 999 (scaleFor 999 1024) := by
  have h1 : (computeDims 999 1024).1 = 500 := by
    norm_num [computeDims, jsRound, scaleFor]
    omega
  have h2 : specFloorDim 999 (scaleFor 999 1024) = 499 := by
    norm_num [specFloorDim, scaleFor]
    omega
  exact ⟨h1, h2, by rw [h1, h2]; norm_num⟩

/-- C6 amended: the scale factor is `min(1, 512 / max(origW, origH))` and
each working dimension is `origDim * scale` rounded half-up
(`Math.round`, i.e. `⌊x + 1/2⌋`), then floor-clamped to a minimum of 64. -/
theorem claim_C6_dims_round_formula (origW origH : ℕ)
    (h : 0 < max origW origH) :
    scaleFor origW origH = min 1 (512 / (max origW origH : ℚ)) ∧
    computeDims origW origH =
      (max 64 (Int.toNat ⌊(origW : ℚ) * scaleFor origW origH + 1 / 2⌋),
       max 64 (Int.toNat ⌊(origH : ℚ) * scaleFor origW origH + 1 / 2⌋)) :=
  ⟨by unfold scaleFor; rw [if_neg h.ne'], rfl⟩

/-- Witness for C6's amended statement at 999 × 1024. -/
theorem claim_C6_dims_round_formula_witness :
    scaleFor 999 1024 = min 1 (512 / (max 999 1024 : ℚ)) ∧
    computeDims 999 1024 =
      (max 64 (Int.toNat ⌊(999 : ℚ) * scaleFor 999 1024 + 1 / 2⌋),
       max 64 (Int.toNat ⌊(1024 : ℚ) * scaleFor 999 1024 + 1 / 2⌋)) :=
  claim_C6_dims_round_formula 999 1024 (by norm_num)

end AIDetector
